import Mathlib

/-
Verification of the SmartFarm API query gateway (`api_server.py`).

The file shallowly embeds the module-level bootstrap, the source-mapping
table, the time-window defaulting, the MongoDB range query, the
document-to-JSON normalization (`mongo_to_json`) and the `/data/{source}`
handler (`get_telemetry_data`) as pure Lean functions, and proves the
specification's claims about them.

Modelling conventions:
 - instants (`datetime`) are integers counted in seconds; `timedelta(days=7)`
   is `7 * 86400` seconds;
 - a BSON document is an association list of field name to `Value`;
   a Python dict has unique keys, so at most one entry per name is intended,
   but no theorem needs that assumption;
 - the store (`collection.find` together with the cursor materialization
   `list(cursor)`, both of which execute inside the handler's `try` block)
   is a function from collection name and query to either a document list
   or a raised exception;
 - a raised Python exception is either an `HTTPException(status, detail)`
   (whose `str()` is "<status>: <detail>", per Starlette) or a store/driver
   error carrying its message (e.g. `ServerSelectionTimeoutError` when the
   connection was never established);
 - the two `datetime.utcnow()` calls of the handler are modelled by the
   single request instant `now`.
-/

namespace SmartFarm

/-- A BSON/Python value stored in a document field.  `oid` is a MongoDB
`ObjectId`, carrying its 24-character hex rendering (which is what Python's
`str()` returns for it). -/
inductive Value where
  | vstr (s : String)
  | vint (n : Int)
  | oid (hex : String)
  | vdate (t : Int)
  | vlist (vs : List Value)
  | vdoc (fields : List (String × Value))

/-- Python `str()` applied to a field value.  The code only ever applies it
to the `_id` field, an `ObjectId`, whose `str()` is its hex form; the
rendering of the remaining variants is never observed by the API. -/
def pyStr : Value → String
  | .vstr s => s
  | .vint n => toString n
  | .oid hex => hex
  | .vdate t => toString t
  | .vlist _ => "<list>"
  | .vdoc _ => "<dict>"

/-- A MongoDB document: an association list of field name to value. -/
abbrev PyDoc := List (String × Value)

/-- The coercion `mongo_to_json` applies to each field of a document that
contains an `_id` key: the `_id` value is replaced by its `str()` form,
every other field is untouched. -/
def idCoerce (kv : String × Value) : String × Value :=
  if kv.fst = "_id" then (kv.fst, Value.vstr (pyStr kv.snd)) else kv

/-- The per-document action of `mongo_to_json`: `if '_id' in doc:
doc['_id'] = str(doc['_id'])`. -/
def setIdToStr (doc : PyDoc) : PyDoc :=
  if doc.any (fun kv => kv.fst == "_id") then doc.map idCoerce else doc

/-- `mongo_to_json` (api_server.py lines 41-48): materializes the cursor and
converts each document's `ObjectId` to a string for JSON compatibility. -/
def mongo_to_json (cursor : List PyDoc) : List PyDoc :=
  cursor.map setIdToStr

/-- The range query built by the handler:
`{"deviceName": deviceName, "timestamp_utc_dt": {"$gte": gte, "$lte": lte}}`. -/
structure Query where
  deviceName : String
  gte : Int
  lte : Int

/-- Field access in a document. -/
def getField (d : PyDoc) (k : String) : Option Value :=
  (d.find? (fun kv => kv.fst == k)).map Prod.snd

/-- MongoDB equality condition `{field: s}` against a string operand: the
field must be present and hold that exact string. -/
def isStrEq (v : Option Value) (s : String) : Bool :=
  match v with
  | some (.vstr n) => n == s
  | _ => false

/-- MongoDB range condition `{field: {"$gte": lo, "$lte": hi}}` against
date-time operands: BSON comparisons with a date-time operand only ever
match date-time values, and a missing field matches neither bound. -/
def dateWithin (v : Option Value) (lo hi : Int) : Bool :=
  match v with
  | some (.vdate t) => decide (lo ≤ t) && decide (t ≤ hi)
  | _ => false

/-- MongoDB matching semantics of the handler's query: the document's
`deviceName` field equals the queried name and its `timestamp_utc_dt` field
is a date-time lying in the closed interval `[gte, lte]`. -/
def docMatches (q : Query) (d : PyDoc) : Bool :=
  isStrEq (getField d "deviceName") q.deviceName &&
  dateWithin (getField d "timestamp_utc_dt") q.gte q.lte

/-- `collection.find(query)` over a collection's contents. -/
def mongoFind (coll : List PyDoc) (q : Query) : List PyDoc :=
  coll.filter (docMatches q)

/-- A raised Python exception: either a `fastapi.HTTPException` or a
store/driver error carrying its message. -/
inductive Exc where
  | http (status_code : Nat) (detail : String)
  | store (msg : String)

/-- Python `str()` of an exception: Starlette's `HTTPException.__str__`
returns "<status_code>: <detail>"; a driver error renders its message. -/
def excStr : Exc → String
  | .http c d => toString c ++ ": " ++ d
  | .store m => m

/-- The structured HTTP error a raised `HTTPException` is converted to at
the framework boundary. -/
structure HTTPError where
  status_code : Nat
  detail : String

/-- The store as seen by the handler: executing a query against a named
collection either yields the matching documents or raises. -/
abbrev Store := String → Query → Except Exc (List PyDoc)

/-- The store backed by actual collection contents `db`, with no failures:
`find` filters by the MongoDB matching semantics. -/
def honestStore (db : String → List PyDoc) : Store :=
  fun coll q => .ok (mongoFind (db coll) q)

/-- Python `str.lower` on one character, modelled on the ASCII range (where
it agrees with Python's Unicode lowering; all names the code compares
against are ASCII). -/
def pyCharLower (c : Char) : Char :=
  if c.isUpper then Char.ofNat (c.toNat + 32) else c

/-- Python `str.lower`. -/
def pyLower (s : String) : String := ⟨s.data.map pyCharLower⟩

/-- The source-mapping table of the handler (api_server.py lines 67-74):
`source.lower()` is compared against the two known logical names and mapped
to the physical collection and the exact `deviceName` filter value. -/
def lookupSource (source : String) : Option (String × String) :=
  if pyLower source = "smartfarm" then
    some ("telemetry_data_clean", "SmartFarm")
  else if pyLower source = "raspberrypi" then
    some ("raspberry_pi_telemetry_clean", "raspberry_pi_status")
  else
    none

/-- `timedelta(days=7)` in seconds. -/
def sevenDays : Int := 7 * 86400

/-- Time-window defaulting for the lower bound (api_server.py lines 77-78):
`if start_date is None: start_date = datetime.utcnow() - timedelta(days=7)`. -/
def effStart (start_date : Option Int) (now : Int) : Int :=
  start_date.getD (now - sevenDays)

/-- Time-window defaulting for the upper bound (api_server.py lines 79-80):
`if end_date is None: end_date = datetime.utcnow()`. -/
def effEnd (end_date : Option Int) (now : Int) : Int :=
  end_date.getD now

/-- Detail string of the unknown-source `HTTPException` (line 74). -/
def srcNotFoundDetail : String :=
  "Source not found. Use \x27smartfarm\x27 or \x27raspberrypi\x27."

/-- Detail string of the empty-result `HTTPException` (line 95). -/
def noDataDetail : String := "No data found for the specified range."

/-- The body of the handler's `try` block (lines 83-97): execute the query,
normalize the documents, and raise a 404 `HTTPException` if the result set
is empty. -/
def tryBody (store : Store) (coll : String) (q : Query) :
    Except Exc (List PyDoc) := do
  let documents ← store coll q
  let json_results := mongo_to_json documents
  if json_results.isEmpty then
    throw (Exc.http 404 noDataDetail)
  else
    pure json_results

/-- The `/data/{source}` handler `get_telemetry_data` (api_server.py lines
57-99): resolve the source (404 if unknown), default the window, run the
`try` block, and convert any exception it raises — `except Exception as e:`
— into `HTTPException(500, "Database query failed: " + str(e))`. -/
def get_telemetry_data (source : String) (start_date end_date : Option Int)
    (now : Int) (store : Store) : Except HTTPError (List PyDoc) :=
  match lookupSource source with
  | none => .error ⟨404, srcNotFoundDetail⟩
  | some (coll, device_name) =>
    match tryBody store coll
        ⟨device_name, effStart start_date now, effEnd end_date now⟩ with
    | .ok r => .ok r
    | .error e => .error ⟨500, "Database query failed: " ++ excStr e⟩

/-- Python truthiness of an environment lookup: `os.getenv` yields `None`
when the variable is missing, and the empty string is falsy. -/
def pyTruthy : Option String → Bool
  | none => false
  | some s => !(s == "")

/-- Python `all([...])` over environment lookups. -/
def pyAll (xs : List (Option String)) : Bool := xs.all pyTruthy

/-- The module-level bootstrap (api_server.py lines 18-31): fetch the three
credentials from the environment and raise
`ValueError("Missing MongoDB credentials in .env file. Please create one.")`
if any is missing or empty.  Otherwise startup proceeds: `MongoClient`
construction is lazy and attempts no connection, so an unreachable host does
not raise here. -/
def bootstrap (MONGO_USER MONGO_PASSWORD MONGO_HOST : Option String) :
    Except String Unit :=
  if !(pyAll [MONGO_USER, MONGO_PASSWORD, MONGO_HOST]) then
    .error "Missing MongoDB credentials in .env file. Please create one."
  else
    .ok ()

/-- The property that a document's `_id` field, when present, holds a plain
string (never a raw `ObjectId`). -/
def idFieldIsString (d : PyDoc) : Prop :=
  ∀ kv ∈ d, kv.fst = "_id" → ∃ s, kv.snd = Value.vstr s

/-- Sample collection contents used to witness the query theorems. -/
def sampleDb : String → List PyDoc := fun c =>
  if c = "telemetry_data_clean" then
    [[("_id", Value.oid "65a0f1c2e4b0a1b2c3d4e5f6"),
      ("deviceName", Value.vstr "SmartFarm"),
      ("timestamp_utc_dt", Value.vdate 5)],
     [("_id", Value.oid "65a0f1c2e4b0a1b2c3d4e5f7"),
      ("deviceName", Value.vstr "SmartFarm"),
      ("timestamp_utc_dt", Value.vdate 99)]]
  else []

/-- Sample document used to witness the normalization theorems. -/
def sampleDoc : PyDoc :=
  [("_id", Value.oid "65a0f1c2e4b0a1b2c3d4e5f6"),
   ("deviceName", Value.vstr "SmartFarm"),
   ("timestamp_utc_dt", Value.vdate 5),
   ("payload", Value.vdoc [("temp", Value.vint 31)])]

/-- A store that answers every query with the sample document. -/
def sampleStore : Store := fun _ _ => .ok [sampleDoc]

/-- Sample document list used to witness the `mongo_to_json` theorem. -/
def sampleDocs : List PyDoc :=
  [[("_id", Value.oid "65a0f1c2e4b0a1b2c3d4e5f6"), ("x", Value.vint 3)],
   [("x", Value.vint 3)]]

/-! ## Helper lemmas -/

/-- When the store raises, the `try` body raises the same exception. -/
theorem tryBody_error (store : Store) (coll : String) (q : Query) (ex : Exc)
    (h : store coll q = .error ex) : tryBody store coll q = .error ex := by
  unfold tryBody
  rw [h]
  rfl

/-- `isStrEq` holds exactly of the given string value. -/
theorem isStrEq_iff (v : Option Value) (s : String) :
    isStrEq v s = true ↔ v = some (.vstr s) := by
  cases v with
  | none => simp [isStrEq]
  | some w => cases w <;> simp [isStrEq]

/-- `dateWithin` holds exactly of date-time values in the closed interval. -/
theorem dateWithin_iff (v : Option Value) (lo hi : Int) :
    dateWithin v lo hi = true ↔
      ∃ t, v = some (.vdate t) ∧ lo ≤ t ∧ t ≤ hi := by
  cases v with
  | none => simp [dateWithin]
  | some w => cases w <;> simp [dateWithin, and_assoc]

/-- Index-wise behaviour of the per-document normalization: the `_id` field
is coerced to its string form and every other field is unchanged. -/
theorem setIdToStr_getElem (d : PyDoc) (j : Nat) :
    (setIdToStr d)[j]? = (d[j]?).map idCoerce := by
  unfold setIdToStr
  by_cases hany : d.any (fun kv => kv.fst == "_id") = true
  · rw [if_pos hany, List.getElem?_map]
  · rw [if_neg (by simp [hany])]
    cases hj : d[j]? with
    | none => rfl
    | some kv =>
      have hm : kv ∈ d := List.getElem?_mem hj
      have hne : ¬ kv.fst = "_id" := by
        intro hc
        exact hany (List.any_eq_true.mpr ⟨kv, hm, by simp [hc]⟩)
      simp [idCoerce, hne]

/-- Normalization preserves the number of fields of a document. -/
theorem setIdToStr_length (d : PyDoc) : (setIdToStr d).length = d.length := by
  unfold setIdToStr
  split
  · exact List.length_map ..
  · rfl

/-- After normalization, an `_id` field always holds a plain string. -/
theorem setIdToStr_idString (d : PyDoc) : idFieldIsString (setIdToStr d) := by
  intro kv hkv hfst
  unfold setIdToStr at hkv
  by_cases hany : d.any (fun x => x.fst == "_id") = true
  · rw [if_pos hany] at hkv
    obtain ⟨kv₀, hkv₀, hmap⟩ := List.mem_map.mp hkv
    by_cases h0 : kv₀.fst = "_id"
    · refine ⟨pyStr kv₀.snd, ?_⟩
      rw [← hmap]
      simp [idCoerce, h0]
    · rw [← hmap] at hfst
      simp [idCoerce, h0] at hfst
  · rw [if_neg hany] at hkv
    exact absurd (List.any_eq_true.mpr ⟨kv, hkv, by simp [hfst]⟩) hany

/-- A successful `try` body means the store succeeded with a non-empty
normalized result. -/
theorem tryBody_ok_inv (store : Store) (coll : String) (q : Query)
    (r : List PyDoc) (h : tryBody store coll q = .ok r) :
    ∃ docs, store coll q = .ok docs ∧ r = mongo_to_json docs := by
  unfold tryBody at h
  cases hs : store coll q with
  | error e =>
    rw [hs] at h
    exact Except.noConfusion h
  | ok docs =>
    rw [hs] at h
    have h' : (if (mongo_to_json docs).isEmpty = true then
        (Except.error (Exc.http 404 noDataDetail) : Except Exc (List PyDoc))
      else .ok (mongo_to_json docs)) = .ok r := h
    by_cases he : (mongo_to_json docs).isEmpty = true
    · rw [if_pos he] at h'
      exact Except.noConfusion h'
    · rw [if_neg he] at h'
      injection h' with h''
      exact ⟨docs, rfl, h''.symm⟩

/-- The handler on a known source, written without the source match. -/
theorem handler_known_eq (source coll dev : String)
    (h : lookupSource source = some (coll, dev)) (sd ed : Option Int)
    (now : Int) (store : Store) :
    get_telemetry_data source sd ed now store =
      match tryBody store coll ⟨dev, effStart sd now, effEnd ed now⟩ with
      | .ok r => .ok r
      | .error e => .error ⟨500, "Database query failed: " ++ excStr e⟩ := by
  unfold get_telemetry_data
  rw [h]

/-- A successful handler response comes from a resolved source and a
successful store query, normalized by `mongo_to_json`. -/
theorem handler_ok_inv (source : String) (sd ed : Option Int) (now : Int)
    (store : Store) (rs : List PyDoc)
    (h : get_telemetry_data source sd ed now store = .ok rs) :
    ∃ coll dev docs,
      lookupSource source = some (coll, dev) ∧
      store coll ⟨dev, effStart sd now, effEnd ed now⟩ = .ok docs ∧
      rs = mongo_to_json docs := by
  cases hls : lookupSource source with
  | none =>
    unfold get_telemetry_data at h
    rw [hls] at h
    simp at h
  | some cd =>
    obtain ⟨coll, dev⟩ := cd
    rw [handler_known_eq source coll dev hls sd ed now store] at h
    cases htb : tryBody store coll ⟨dev, effStart sd now, effEnd ed now⟩ with
    | error e =>
      rw [htb] at h
      simp at h
    | ok r =>
      rw [htb] at h
      simp at h
      obtain ⟨docs, hsd, hrd⟩ := tryBody_ok_inv store coll _ r htb
      exact ⟨coll, dev, docs, rfl, hsd, by rw [← h]; exact hrd⟩

/-! ## Claim theorems -/

/-- Claim C1 (code bug): with a known source and a query that matches zero
documents, the handler's own `raise HTTPException(404, "No data found for
the specified range.")` sits inside its `try` block, so the blanket
`except Exception` catches it and re-raises it as a 500 whose detail embeds
the stringified 404 — the caller receives a 500-equivalent status, not the
Not-Found the claim (and line 95 itself) intends. -/
theorem c1_empty_result_becomes_500 :
    get_telemetry_data "smartfarm" (some 0) (some 1) 0 (fun _ _ => .ok []) =
      .error ⟨500,
        "Database query failed: 404: No data found for the specified range."⟩ :=
  rfl

/-- Claim C2, amended: when the store connection was never established or
was lost, every execution attempt raises a driver error, and the handler
answers every such request with a 500-equivalent status (detail
"Database query failed: " plus the driver's message) — not a 503 — and the
process does not crash (the handler returns a structured error for all
request parameters). -/
theorem c2_store_unavailable_500 (source coll dev : String)
    (h : lookupSource source = some (coll, dev))
    (sd ed : Option Int) (now : Int) (msg : String) :
    get_telemetry_data source sd ed now (fun _ _ => .error (.store msg)) =
      .error ⟨500, "Database query failed: " ++ msg⟩ := by
  unfold get_telemetry_data
  rw [h]
  rfl

/-- Witness for C2's amended theorem at concrete inputs. -/
theorem c2_store_unavailable_500_witness :
    get_telemetry_data "raspberrypi" none none 0
        (fun _ _ => .error (.store "timed out")) =
      .error ⟨500, "Database query failed: timed out"⟩ :=
  c2_store_unavailable_500 "raspberrypi" "raspberry_pi_telemetry_clean"
    "raspberry_pi_status" rfl none none 0 "timed out"

/-- Counterexample to claim C2 as stated: with the connection down (every
store call raises `ServerSelectionTimeoutError`-style), the handler answers
500, and 500 is not a 503-equivalent status. -/
theorem c2_claim_counterexample :
    get_telemetry_data "smartfarm" none none 0
        (fun _ _ => .error (.store "connection refused")) =
      .error ⟨500, "Database query failed: connection refused"⟩ ∧
    (500 : Nat) ≠ 503 :=
  ⟨rfl, by decide⟩

/-- Counterexample to claim C3 as stated: with a required credential absent
from the environment, the module-level bootstrap raises an unhandled
`ValueError` before the service binds — startup aborts rather than
continuing degraded. -/
theorem c3_claim_counterexample :
    bootstrap none (some "pw") (some "db.example.com") =
      .error "Missing MongoDB credentials in .env file. Please create one." :=
  rfl

/-- Claim C3, amended: absence (or emptiness) of any required credential
aborts startup with a raised `ValueError`; when all three credentials are
present and non-empty, startup succeeds even if the store is unreachable
(the client is constructed lazily, attempting no connection), and data
requests against a known source then surface store failures as
500-equivalent errors, not Service-Unavailable. -/
theorem c3_startup_behavior :
    (∀ u p hs, pyAll [u, p, hs] = false →
       bootstrap u p hs =
         .error "Missing MongoDB credentials in .env file. Please create one.") ∧
    (∀ u p hs : String, u ≠ "" → p ≠ "" → hs ≠ "" →
       bootstrap (some u) (some p) (some hs) = .ok ()) ∧
    (∀ source sd ed now msg, (lookupSource source).isSome = true →
       ∃ d, get_telemetry_data source sd ed now (fun _ _ => .error (.store msg)) =
         .error ⟨500, d⟩) := by
  refine ⟨?_, ?_, ?_⟩
  · intro u p hs hf
    unfold bootstrap
    rw [hf]
    rfl
  · intro u p hs hu hp hh
    unfold bootstrap pyAll
    simp [pyTruthy, hu, hp, hh]
  · intro source sd ed now msg hsome
    cases hls : lookupSource source with
    | none => rw [hls] at hsome; cases hsome
    | some cd =>
      obtain ⟨coll, dev⟩ := cd
      refine ⟨"Database query failed: " ++ msg, ?_⟩
      unfold get_telemetry_data
      rw [hls]
      rfl

/-- Witness for C3's amended theorem at concrete inputs. -/
theorem c3_startup_behavior_witness :
    bootstrap (some "admin") (some "pw") (some "localhost") = .ok () ∧
    bootstrap (some "") (some "pw") (some "localhost") =
      .error "Missing MongoDB credentials in .env file. Please create one." ∧
    ∃ d, get_telemetry_data "smartfarm" none none 0
        (fun _ _ => .error (.store "no connection")) = .error ⟨500, d⟩ :=
  ⟨c3_startup_behavior.2.1 "admin" "pw" "localhost" (by decide) (by decide)
     (by decide),
   c3_startup_behavior.1 (some "") (some "pw") (some "localhost") rfl,
   c3_startup_behavior.2.2 "smartfarm" none none 0 "no connection" rfl⟩

/-- Claim C4: every source string lowering to "smartfarm" maps to collection
"telemetry_data_clean" with device filter "SmartFarm", and every source
string lowering to "raspberrypi" maps to "raspberry_pi_telemetry_clean"
with device filter "raspberry_pi_status". -/
theorem c4_source_mapping (s : String) :
    (pyLower s = "smartfarm" →
       lookupSource s = some ("telemetry_data_clean", "SmartFarm")) ∧
    (pyLower s = "raspberrypi" →
       lookupSource s = some ("raspberry_pi_telemetry_clean",
         "raspberry_pi_status")) := by
  constructor
  · intro h
    simp [lookupSource, h]
  · intro h
    simp [lookupSource, h]

/-- Witness for C4 at concrete mixed-case inputs. -/
theorem c4_source_mapping_witness :
    lookupSource "SmartFarm" = some ("telemetry_data_clean", "SmartFarm") ∧
    lookupSource "RaspberryPi" =
      some ("raspberry_pi_telemetry_clean", "raspberry_pi_status") :=
  ⟨(c4_source_mapping "SmartFarm").1 rfl,
   (c4_source_mapping "RaspberryPi").2 rfl⟩

/-- Claim C6: an absent `start_date` defaults to the request instant minus
7 days, an absent `end_date` defaults to the request instant, the handler
behaves identically to one called with those explicit bounds, and requests
at different instants get different effective windows. -/
theorem c6_default_window :
    (∀ now : Int, effStart none now = now - sevenDays) ∧
    (∀ now : Int, effEnd none now = now) ∧
    (∀ source store now, get_telemetry_data source none none now store =
       get_telemetry_data source (some (now - sevenDays)) (some now) now store) ∧
    (∀ n₁ n₂ : Int, n₁ ≠ n₂ →
       (effStart none n₁, effEnd none n₁) ≠ (effStart none n₂, effEnd none n₂)) := by
  refine ⟨fun _ => rfl, fun _ => rfl, fun _ _ _ => rfl, ?_⟩
  intro n₁ n₂ hne heq
  exact hne (congrArg Prod.snd heq)

/-- Witness for C6 at concrete instants. -/
theorem c6_default_window_witness :
    effStart none 1000000 = 1000000 - sevenDays ∧
    effEnd none 1000000 = 1000000 ∧
    (effStart none 0, effEnd none 0) ≠ (effStart none 86400, effEnd none 86400) :=
  ⟨c6_default_window.1 1000000, c6_default_window.2.1 1000000,
   c6_default_window.2.2.2 0 86400 (by decide)⟩

/-- Claim C8: any source string lowering to neither "smartfarm" nor
"raspberrypi" yields a 404 whose detail names both allowed values. -/
theorem c8_unknown_source (s : String) (sd ed : Option Int) (now : Int)
    (store : Store) (h1 : pyLower s ≠ "smartfarm")
    (h2 : pyLower s ≠ "raspberrypi") :
    get_telemetry_data s sd ed now store = .error ⟨404, srcNotFoundDetail⟩ ∧
    ∃ a b c, srcNotFoundDetail = a ++ "smartfarm" ++ b ++ "raspberrypi" ++ c := by
  constructor
  · unfold get_telemetry_data lookupSource
    rw [if_neg h1, if_neg h2]
  · exact ⟨"Source not found. Use \x27", "\x27 or \x27", "\x27.", rfl⟩

/-- Witness for C8 at a concrete unknown source. -/
theorem c8_unknown_source_witness :
    get_telemetry_data "greenhouse" none none 0 (fun _ _ => .ok []) =
      .error ⟨404, srcNotFoundDetail⟩ ∧
    ∃ a b c, srcNotFoundDetail = a ++ "smartfarm" ++ b ++ "raspberrypi" ++ c :=
  c8_unknown_source "greenhouse" none none 0 _ (by decide) (by decide)

/-- Claim C9: any exception the store raises while the executed query runs
is caught by the handler and converted to a structured 500 error whose
detail is the generic message "Database query failed: " followed by the
stringified original exception; the handler returns that structured error
instead of propagating the exception. -/
theorem c9_query_exception_to_500 (source coll dev : String)
    (h : lookupSource source = some (coll, dev))
    (sd ed : Option Int) (now : Int) (store : Store) (ex : Exc)
    (hex : store coll ⟨dev, effStart sd now, effEnd ed now⟩ = .error ex) :
    get_telemetry_data source sd ed now store =
      .error ⟨500, "Database query failed: " ++ excStr ex⟩ := by
  unfold get_telemetry_data
  simp only [h]
  rw [tryBody_error store coll _ ex hex]

/-- Witness for C9 at concrete inputs. -/
theorem c9_query_exception_to_500_witness :
    get_telemetry_data "smartfarm" (some 0) (some 1) 0
        (fun _ _ => .error (.store "boom")) =
      .error ⟨500, "Database query failed: boom"⟩ :=
  c9_query_exception_to_500 "smartfarm" "telemetry_data_clean" "SmartFarm"
    rfl (some 0) (some 1) 0 _ (.store "boom") rfl

/-- Claim C5: with a known source and explicit bounds, a successful
response is exactly the normalized set of documents whose `deviceName`
equals the mapped name and whose `timestamp_utc_dt` lies in the closed
interval `[start, end]` — greater-or-equal on the lower bound,
less-or-equal on the upper bound, for either source (the query construction
is shared). -/
theorem c5_range_query (db : String → List PyDoc) (source coll dev : String)
    (h : lookupSource source = some (coll, dev)) (s e now : Int) :
    (∀ rs, get_telemetry_data source (some s) (some e) now (honestStore db) =
        .ok rs →
      rs = mongo_to_json ((db coll).filter (docMatches ⟨dev, s, e⟩))) ∧
    (∀ d, d ∈ mongoFind (db coll) ⟨dev, s, e⟩ ↔
      d ∈ db coll ∧ docMatches ⟨dev, s, e⟩ d = true) ∧
    (∀ d : PyDoc, docMatches ⟨dev, s, e⟩ d = true ↔
      getField d "deviceName" = some (.vstr dev) ∧
      ∃ t, getField d "timestamp_utc_dt" = some (.vdate t) ∧
        s ≤ t ∧ t ≤ e) := by
  refine ⟨?_, ?_, ?_⟩
  · intro rs hrs
    obtain ⟨c', d', docs, hls, hst, hrd⟩ :=
      handler_ok_inv source (some s) (some e) now (honestStore db) rs hrs
    rw [h] at hls
    injection hls with hpair
    obtain ⟨hc, hd⟩ := Prod.mk.injEq .. ▸ hpair
    subst hc
    subst hd
    have hdocs : docs = mongoFind (db coll) ⟨dev, s, e⟩ := by
      have h' : (Except.ok (mongoFind (db coll) ⟨dev, s, e⟩) :
          Except Exc (List PyDoc)) = .ok docs := hst
      injection h' with h''
      exact h''.symm
    rw [hrd, hdocs]
    rfl
  · intro d
    exact List.mem_filter
  · intro d
    simp [docMatches, Bool.and_eq_true, isStrEq_iff, dateWithin_iff]

/-- Witness for C5 on a concrete two-document collection. -/
theorem c5_range_query_witness :
    (∀ rs, get_telemetry_data "smartfarm" (some 0) (some 10) 0
        (honestStore sampleDb) = .ok rs →
      rs = mongo_to_json ((sampleDb "telemetry_data_clean").filter
        (docMatches ⟨"SmartFarm", 0, 10⟩))) ∧
    (∀ d, d ∈ mongoFind (sampleDb "telemetry_data_clean") ⟨"SmartFarm", 0, 10⟩ ↔
      d ∈ sampleDb "telemetry_data_clean" ∧
      docMatches ⟨"SmartFarm", 0, 10⟩ d = true) ∧
    (∀ d : PyDoc, docMatches ⟨"SmartFarm", 0, 10⟩ d = true ↔
      getField d "deviceName" = some (.vstr "SmartFarm") ∧
      ∃ t, getField d "timestamp_utc_dt" = some (.vdate t) ∧
        0 ≤ t ∧ t ≤ 10) :=
  c5_range_query sampleDb "smartfarm" "telemetry_data_clean" "SmartFarm"
    rfl 0 10 0

/-- Claim C7: every successful data-endpoint response consists of the store
documents the executed query returned, index-by-index, each with its `_id`
field (when present) coerced to the string form of its value and every
other field — nested structures included — preserved literally; a returned
`_id` field always holds a plain string. -/
theorem c7_id_normalization (source : String) (sd ed : Option Int)
    (now : Int) (store : Store) (rs : List PyDoc)
    (h : get_telemetry_data source sd ed now store = .ok rs) :
    ∃ coll dev docs,
      lookupSource source = some (coll, dev) ∧
      store coll ⟨dev, effStart sd now, effEnd ed now⟩ = .ok docs ∧
      rs = mongo_to_json docs ∧
      rs.length = docs.length ∧
      (∀ (i : Nat) (d₀ : PyDoc), docs[i]? = some d₀ →
        ∃ r : PyDoc, rs[i]? = some r ∧
          r.length = d₀.length ∧
          (∀ j : Nat, r[j]? = (d₀[j]?).map idCoerce) ∧
          idFieldIsString r) := by
  obtain ⟨coll, dev, docs, hls, hst, hrd⟩ :=
    handler_ok_inv source sd ed now store rs h
  refine ⟨coll, dev, docs, hls, hst, hrd, ?_, ?_⟩
  · rw [hrd]
    exact List.length_map ..
  · intro i d₀ hd
    refine ⟨setIdToStr d₀, ?_, setIdToStr_length d₀,
      fun j => setIdToStr_getElem d₀ j, setIdToStr_idString d₀⟩
    rw [hrd]
    simp [mongo_to_json, List.getElem?_map, hd]

/-- Witness for C7 on a concrete store answering one document. -/
theorem c7_id_normalization_witness :
    ∃ coll dev docs,
      lookupSource "smartfarm" = some (coll, dev) ∧
      sampleStore coll ⟨dev, effStart (some 0) 0, effEnd (some 10) 0⟩ =
        .ok docs ∧
      mongo_to_json [sampleDoc] = mongo_to_json docs ∧
      (mongo_to_json [sampleDoc]).length = docs.length ∧
      (∀ (i : Nat) (d₀ : PyDoc), docs[i]? = some d₀ →
        ∃ r : PyDoc, (mongo_to_json [sampleDoc])[i]? = some r ∧
          r.length = d₀.length ∧
          (∀ j : Nat, r[j]? = (d₀[j]?).map idCoerce) ∧
          idFieldIsString r) :=
  c7_id_normalization "smartfarm" (some 0) (some 10) 0 sampleStore
    (mongo_to_json [sampleDoc]) rfl

/-- Claim C10: `mongo_to_json` maps a document list to one of the same
length and order; a document with an `_id` key gets that value replaced by
its string form (all other fields untouched), a document without one is
returned unchanged.  (The embedding is a total function, so no input can
raise.) -/
theorem c10_mongo_to_json_shape (ds : List PyDoc) :
    (mongo_to_json ds).length = ds.length ∧
    (∀ (i : Nat) (d : PyDoc), ds[i]? = some d →
      (mongo_to_json ds)[i]? = some (setIdToStr d)) ∧
    (∀ d : PyDoc, d.any (fun kv => kv.fst == "_id") = true →
      setIdToStr d = d.map idCoerce) ∧
    (∀ d : PyDoc, d.any (fun kv => kv.fst == "_id") = false →
      setIdToStr d = d) := by
  refine ⟨List.length_map .., ?_, ?_, ?_⟩
  · intro i d hd
    simp [mongo_to_json, List.getElem?_map, hd]
  · intro d hany
    unfold setIdToStr
    rw [if_pos hany]
  · intro d hany
    unfold setIdToStr
    rw [if_neg (by simp [hany])]

/-- Witness for C10 at a concrete two-document list. -/
theorem c10_mongo_to_json_shape_witness :
    (mongo_to_json sampleDocs).length = sampleDocs.length ∧
    (mongo_to_json sampleDocs)[0]? =
      some (setIdToStr [("_id", Value.oid "65a0f1c2e4b0a1b2c3d4e5f6"),
        ("x", Value.vint 3)]) ∧
    setIdToStr [("_id", Value.oid "65a0f1c2e4b0a1b2c3d4e5f6"),
        ("x", Value.vint 3)] =
      [("_id", Value.oid "65a0f1c2e4b0a1b2c3d4e5f6"),
        ("x", Value.vint 3)].map idCoerce ∧
    setIdToStr [("x", Value.vint 3)] = [("x", Value.vint 3)] :=
  ⟨(c10_mongo_to_json_shape sampleDocs).1,
   (c10_mongo_to_json_shape sampleDocs).2.1 0 _ rfl,
   (c10_mongo_to_json_shape sampleDocs).2.2.1 _ rfl,
   (c10_mongo_to_json_shape sampleDocs).2.2.2 _ rfl⟩

end SmartFarm
